import Mathlib

/-!
Shallow embedding of `ct::core::ConstantController<MANIFOLD, CONT_T>`
(src/ct_core/include/ct/core/control/ConstantController.h) from the
Control Toolbox.

Modelling conventions:
* `α` stands for `SCALAR` (= `MANIFOLD::Scalar`); the control vector
  `control_vector_t` is modelled as `List α` and the square
  `ControlMatrix<SCALAR>` as `List (List α)` (row-major).
* The `MANIFOLD` state type and the `Time_t` type are opaque type
  parameters `σ` and `τ` of the member functions; the `CONT_T` flag only
  selects `Time_t`, so it is absorbed into `τ`.
* A C++ member function that may touch the object or its by-reference
  arguments is embedded as a function returning the post-call values of
  the object and of those arguments, so that frame conditions are
  explicit rather than assumed.
* The header declares `computeControl`, `setControl`, `getControl`,
  `clone`, the copy constructor, the initial-vector constructor and
  `getDerivativeU0` without bodies (the `-impl` translation unit is
  not part of the sources); these are modelled from the specification,
  as marked in each doc comment.
-/

namespace CtCore

/-- State of a `ConstantController`: the stored fixed control vector
`u_` and the stored control-derivative matrix `derivative_u0_`
(the two private data members of the C++ class). -/
structure ConstantController (α : Type) where
  u_ : List α
  derivative_u0_ : List (List α)
  deriving Repr, DecidableEq

/-- Embedding of Eigen's `setIdentity()` result for a `d × d`
`ControlMatrix<SCALAR>`: the identity matrix as a row-major list of
rows. -/
def identityMatrix (α : Type) [Zero α] [One α] (d : Nat) : List (List α) :=
  (List.range d).map (fun i => (List.range d).map (fun j => if i = j then (1 : α) else 0))

namespace ConstantController

variable {α : Type} [Zero α] [One α]

/-- Dimension constructor `ConstantController(const int d) : u_(d),
derivative_u0_(d) { derivative_u0_.setIdentity(); }` for a non-negative
dimension `d`. The identity matrix comes from the source's
`setIdentity()` call. Modelled from the spec: the container type
`control_vector_t` (declared in the absent `Controller.h`) is taken to
zero-initialize its `d` entries, as section 4.2 of the specification
states ("control vector sized `d`, zero-initialized"). -/
def mkDim (d : Nat) : ConstantController α :=
  { u_ := List.replicate d 0, derivative_u0_ := identityMatrix α d }

/-- Guarded embedding of the dimension constructor over the C++ `int`
argument: Eigen rejects a negative size, so a negative `d` takes the
error branch; a non-negative `d` constructs normally via `mkDim`. -/
def mkDimChecked (d : Int) : Option (ConstantController α) :=
  if 0 ≤ d then some (mkDim d.toNat) else none

/-- Initial-vector constructor `ConstantController(control_vector_t& u)`.
Modelled from the spec: its body is not in the sources; section 4.2
says "control vector copies `u`; dimension and derivative matrix sized
to match", and `getDerivativeU0` is specified to return the identity,
so the stored matrix is the identity of size `u.length`. -/
def mkFromVector (u : List α) : ConstantController α :=
  { u_ := u, derivative_u0_ := identityMatrix α u.length }

/-- Copy constructor `ConstantController(const ConstantController&)`.
Modelled from the spec: its body is not in the sources; the spec says
it "produces a fully independent copy (own buffers)", i.e. a memberwise
copy of `u_` and `derivative_u0_`. -/
def copyCtor (c : ConstantController α) : ConstantController α :=
  { u_ := c.u_, derivative_u0_ := c.derivative_u0_ }

/-- Clone operator `clone()`. Modelled from the spec: its body is not
in the sources; the spec says it "returns a new `ConstantController`
with an independent copy of the current fixed vector and derivative
matrix", i.e. it invokes the copy constructor. -/
def clone (c : ConstantController α) : ConstantController α :=
  copyCtor c

end ConstantController

/-- Member `GetControlDim() const { return u_.size(); }` (inline in the
header); the C++ return type is `int`. -/
def ConstantController.GetControlDim {α : Type} (c : ConstantController α) : Int :=
  (c.u_.length : Int)

/-- Member `computeControl(const MANIFOLD& state, const Time_t& tn,
control_vector_t& controlAction)`. Modelled from the spec: its body is
not in the sources; the spec says it "ignores both arguments entirely;
writes the stored fixed vector into `controlAction`" and is a pure
copy-out with no side effects. The result triple is the post-call
controller, the post-call state argument, and the post-call contents of
the `controlAction` output parameter (whose prior contents `controlAction`
are overwritten). -/
def ConstantController.computeControl {α σ τ : Type} (c : ConstantController α)
    (state : σ) (tn : τ) (controlAction : List α) :
    ConstantController α × σ × List α :=
  (c, state, c.u_)

/-- Member `setControl(const control_vector_t& u)`. Modelled from the
spec: its body is not in the sources; the spec says it "mutates the
fixed vector", replacing the stored `u_` by `u`. The spec's data model
types the argument as a control vector of the controller's dimension
(control vectors are "fixed-length … immutable for the lifetime of a
controller instance"), so an in-contract call supplies a vector of the
stored length. -/
def ConstantController.setControl {α : Type} (c : ConstantController α) (u : List α) :
    ConstantController α :=
  { c with u_ := u }

/-- Member `getControl() const`. Modelled from the spec: its body is not
in the sources; the spec says it reads the fixed vector. -/
def ConstantController.getControl {α : Type} (c : ConstantController α) : List α :=
  c.u_

/-- Member `getDerivativeU0(const MANIFOLD& state, const Time_t tn)`.
Modelled from the spec: its body is not in the sources; the spec says it
returns the stored control-derivative matrix (the identity set up at
construction) regardless of the state and time arguments. -/
def ConstantController.getDerivativeU0 {α σ τ : Type} (c : ConstantController α)
    (state : σ) (tn : τ) : List (List α) :=
  c.derivative_u0_

/-- Ways a `ConstantController` instance can be constructed. The C++
class deletes its default constructor (`ConstantController() = delete`),
so the only constructors are the dimension constructor, the
initial-vector constructor and the copy constructor (used by `clone`);
this inductive has exactly those three cases and no nullary case. -/
inductive Constructed {α : Type} [Zero α] [One α] : ConstantController α → Prop
  | fromDim (d : Nat) : Constructed (ConstantController.mkDim d)
  | fromVector (u : List α) : Constructed (ConstantController.mkFromVector u)
  | fromCopy (c : ConstantController α) : Constructed c → Constructed (ConstantController.copyCtor c)

/-- Folding a sequence of `setControl` calls never touches the stored
derivative matrix. -/
theorem foldl_setControl_derivative {α : Type} (us : List (List α)) :
    ∀ c : ConstantController α,
      (us.foldl ConstantController.setControl c).derivative_u0_ = c.derivative_u0_ := by
  induction us with
  | nil => intro c; rfl
  | cons u us ih => intro c; simpa using ih (c.setControl u)

/-- C1: for every `ConstantController` with stored vector `u_`, and for
every state, time and prior contents of the output parameter,
`computeControl` writes exactly the stored vector into the output
parameter, and the result does not depend on the state or time
arguments. -/
theorem computeControl_writes_stored_vector {α σ τ : Type}
    (c : ConstantController α) (s s' : σ) (t t' : τ) (ca ca' : List α) :
    (c.computeControl s t ca).2.2 = c.u_ ∧
    (c.computeControl s t ca).2.2 = (c.computeControl s' t' ca').2.2 :=
  ⟨rfl, rfl⟩

/-- C2: `getDerivativeU0` returns the identity matrix whose size is the
control dimension fixed at construction — for the dimension constructor
the `d × d` identity, for the initial-vector constructor the
`u.length × u.length` identity — and for every controller its result is
the same at all states and times. -/
theorem getDerivativeU0_identity {α : Type} [Zero α] [One α] {σ τ : Type}
    (d : Nat) (u : List α) (c : ConstantController α) (s s' : σ) (t t' : τ) :
    (ConstantController.mkDim d : ConstantController α).getDerivativeU0 s t
      = identityMatrix α d ∧
    (ConstantController.mkFromVector u).getDerivativeU0 s t
      = identityMatrix α u.length ∧
    c.getDerivativeU0 s t = c.getDerivativeU0 s' t' :=
  ⟨rfl, rfl, rfl⟩

/-- C3: constructing by dimension `d` yields a control vector of length
`d` with all entries zero and the `d × d` identity derivative matrix,
and `computeControl` called right after construction writes the all-zero
vector of length `d`. -/
theorem mkDim_zero_vector_identity_matrix {α : Type} [Zero α] [One α] {σ τ : Type}
    (d : Nat) (s : σ) (t : τ) (ca : List α) :
    (ConstantController.mkDim d : ConstantController α).u_ = List.replicate d (0 : α) ∧
    (ConstantController.mkDim d : ConstantController α).u_.length = d ∧
    (ConstantController.mkDim d : ConstantController α).derivative_u0_ = identityMatrix α d ∧
    ((ConstantController.mkDim d : ConstantController α).computeControl s t ca).2.2
      = List.replicate d (0 : α) :=
  ⟨rfl, by simp [ConstantController.mkDim], rfl, rfl⟩

/-- Folding a sequence of `setControl` calls whose arguments each have
the controller's current dimension preserves the stored vector's
length. -/
theorem foldl_setControl_length {α : Type} (us : List (List α)) :
    ∀ c : ConstantController α, (∀ u ∈ us, u.length = c.u_.length) →
      (us.foldl ConstantController.setControl c).u_.length = c.u_.length := by
  induction us with
  | nil => intro c _; rfl
  | cons u us ih =>
    intro c h
    have hu : u.length = c.u_.length := h u (by simp)
    have hrec := ih (c.setControl u)
      (fun v hv => by simpa [ConstantController.setControl, hu] using h v (by simp [hv]))
    simpa [ConstantController.setControl, hu] using hrec

/-- C4: `GetControlDim` equals the length fixed at construction (by
dimension or by initial vector), equals the length of the vector
written by every `computeControl` call, and is invariant across
`computeControl`, `clone` and any sequence of `setControl` operations —
each of whose arguments is, per the spec's fixed-length typing of
control vectors, of the controller's dimension. -/
theorem GetControlDim_invariant {α : Type} [Zero α] [One α] {σ τ : Type}
    (d : Nat) (u0 : List α) (c : ConstantController α) (us : List (List α))
    (s : σ) (t : τ) (ca : List α)
    (h : ∀ u ∈ us, u.length = c.u_.length) :
    (ConstantController.mkDim d : ConstantController α).GetControlDim = (d : Int) ∧
    (ConstantController.mkFromVector u0).GetControlDim = (u0.length : Int) ∧
    (((c.computeControl s t ca).2.2).length : Int) = c.GetControlDim ∧
    ((c.computeControl s t ca).1).GetControlDim = c.GetControlDim ∧
    c.clone.GetControlDim = c.GetControlDim ∧
    (us.foldl ConstantController.setControl c).GetControlDim = c.GetControlDim := by
  refine ⟨?_, rfl, rfl, rfl, rfl, ?_⟩
  · simp [ConstantController.GetControlDim, ConstantController.mkDim]
  · simp [ConstantController.GetControlDim, foldl_setControl_length us c h]

/-- C4 witness: the invariance theorem applied at dimension 2, initial
vector `[1]`, the controller `mkDim 1`, and the in-contract update
sequence `[[5], [7]]` of length-1 vectors. -/
theorem GetControlDim_invariant_witness :
    (ConstantController.mkDim 2 : ConstantController Int).GetControlDim = (2 : Int) ∧
    (ConstantController.mkFromVector [(1 : Int)]).GetControlDim = (([(1 : Int)].length : Nat) : Int) ∧
    ((((ConstantController.mkDim 1 : ConstantController Int).computeControl () (0 : Int) []).2.2).length : Int)
      = (ConstantController.mkDim 1 : ConstantController Int).GetControlDim ∧
    (((ConstantController.mkDim 1 : ConstantController Int).computeControl () (0 : Int) []).1).GetControlDim
      = (ConstantController.mkDim 1 : ConstantController Int).GetControlDim ∧
    (ConstantController.mkDim 1 : ConstantController Int).clone.GetControlDim
      = (ConstantController.mkDim 1 : ConstantController Int).GetControlDim ∧
    ([[5], [7]].foldl ConstantController.setControl
        (ConstantController.mkDim 1 : ConstantController Int)).GetControlDim
      = (ConstantController.mkDim 1 : ConstantController Int).GetControlDim :=
  GetControlDim_invariant 2 [(1 : Int)] (ConstantController.mkDim 1) [[5], [7]] () (0 : Int) []
    (by decide)

/-- C5: after `setControl u2`, `computeControl` writes `u2` (not any
previously stored vector) for every state and time, the call leaves the
controller in the updated state, and a second later `computeControl`
call still writes `u2`. -/
theorem setControl_then_computeControl {α σ τ : Type}
    (c : ConstantController α) (u2 : List α) (s s' : σ) (t t' : τ) (ca ca' : List α) :
    ((c.setControl u2).computeControl s t ca).2.2 = u2 ∧
    ((c.setControl u2).computeControl s t ca).1 = c.setControl u2 ∧
    ((((c.setControl u2).computeControl s t ca).1).computeControl s' t' ca').2.2 = u2 :=
  ⟨rfl, rfl, rfl⟩

/-- C6: `clone` yields an instance with the same `GetControlDim`, the
same `computeControl` output and the same `getDerivativeU0` output as
the original at the moment of cloning, and afterwards `setControl` on
the clone does not change the original's `computeControl` output, nor
does `setControl` on the original change the clone's. -/
theorem clone_behaviour_and_independence {α σ τ : Type}
    (c : ConstantController α) (u2 : List α) (s : σ) (t : τ) (ca : List α) :
    c.clone.GetControlDim = c.GetControlDim ∧
    (c.clone.computeControl s t ca).2.2 = (c.computeControl s t ca).2.2 ∧
    c.clone.getDerivativeU0 s t = c.getDerivativeU0 s t ∧
    ((c.clone.setControl u2).computeControl s t ca).2.2 = u2 ∧
    (c.computeControl s t ca).2.2 = c.u_ ∧
    ((c.setControl u2).computeControl s t ca).2.2 = u2 ∧
    (c.clone.computeControl s t ca).2.2 = c.u_ :=
  ⟨rfl, rfl, rfl, rfl, rfl, rfl, rfl⟩

/-- C7: there is no default construction — the C++ default constructor
is deleted — so every constructed `ConstantController` instance comes
from the dimension constructor, the initial-vector constructor, or a
copy of an existing constructed instance (the route taken by `clone`). -/
theorem constructed_cases {α : Type} [Zero α] [One α]
    (c : ConstantController α) (h : Constructed c) :
    (∃ d, c = ConstantController.mkDim d) ∨
    (∃ u, c = ConstantController.mkFromVector u) ∨
    (∃ c', Constructed c' ∧ c = ConstantController.copyCtor c') := by
  cases h with
  | fromDim d => exact Or.inl ⟨d, rfl⟩
  | fromVector u => exact Or.inr (Or.inl ⟨u, rfl⟩)
  | fromCopy c' h' => exact Or.inr (Or.inr ⟨c', h', rfl⟩)

/-- C7 witness: the case analysis applied to the concretely constructed
instance `mkDim 2` over the integers. -/
theorem constructed_cases_witness :
    (∃ d, (ConstantController.mkDim 2 : ConstantController Int) = ConstantController.mkDim d) ∨
    (∃ u, (ConstantController.mkDim 2 : ConstantController Int) = ConstantController.mkFromVector u) ∨
    (∃ c', Constructed c' ∧
      (ConstantController.mkDim 2 : ConstantController Int) = ConstantController.copyCtor c') :=
  constructed_cases (ConstantController.mkDim 2) (Constructed.fromDim 2)

/-- C8: `computeControl` has no side effect beyond its output parameter:
the controller (both stored members) and the state argument are
unchanged by the call, and a repeated call with any arguments writes the
same vector. -/
theorem computeControl_frame {α σ τ : Type}
    (c : ConstantController α) (s s' : σ) (t t' : τ) (ca ca' : List α) :
    (c.computeControl s t ca).1 = c ∧
    (c.computeControl s t ca).2.1 = s ∧
    ((c.computeControl s t ca).1).u_ = c.u_ ∧
    ((c.computeControl s t ca).1).derivative_u0_ = c.derivative_u0_ ∧
    (((c.computeControl s t ca).1).computeControl s' t' ca').2.2
      = (c.computeControl s t ca).2.2 :=
  ⟨rfl, rfl, rfl, rfl, rfl⟩

/-- C9: `setControl` modifies only the stored control vector: it leaves
the stored derivative matrix unchanged, and after any sequence of
`setControl` calls — of arbitrary, possibly different, lengths — a
controller constructed with dimension `d` still answers
`getDerivativeU0` with the `d × d` identity matrix. -/
theorem setControl_preserves_getDerivativeU0 {α : Type} [Zero α] [One α] {σ τ : Type}
    (d : Nat) (us : List (List α)) (s : σ) (t : τ) :
    (∀ (c : ConstantController α) (u : List α),
      (c.setControl u).derivative_u0_ = c.derivative_u0_) ∧
    (us.foldl ConstantController.setControl
        (ConstantController.mkDim d : ConstantController α)).getDerivativeU0 s t
      = identityMatrix α d := by
  refine ⟨fun c u => rfl, ?_⟩
  show (us.foldl ConstantController.setControl
      (ConstantController.mkDim d : ConstantController α)).derivative_u0_ = identityMatrix α d
  rw [foldl_setControl_derivative]
  rfl

/-- C10: the dimension constructor succeeds exactly for a non-negative
`int` argument: for `d ≥ 0` it produces a controller whose
`GetControlDim` is exactly `d`, and the error branch of the guarded
embedding is taken exactly when `d < 0`. -/
theorem mkDimChecked_spec {α : Type} [Zero α] [One α] (d : Int) :
    (0 ≤ d → ∃ c : ConstantController α,
      ConstantController.mkDimChecked d = some c ∧ c.GetControlDim = d) ∧
    (ConstantController.mkDimChecked (α := α) d = none ↔ d < 0) := by
  constructor
  · intro hd
    refine ⟨ConstantController.mkDim d.toNat, ?_, ?_⟩
    · simp [ConstantController.mkDimChecked, hd]
    · simp [ConstantController.GetControlDim, ConstantController.mkDim, Int.toNat_of_nonneg hd]
  · constructor
    · intro hnone
      by_contra hlt
      push_neg at hlt
      simp [ConstantController.mkDimChecked, hlt] at hnone
    · intro hlt
      simp [ConstantController.mkDimChecked, Int.not_le.mpr hlt]

/-- C10 witness: the guarded constructor applied at the concrete
arguments `3` (success branch) and `-1` (error branch) over the
integers. -/
theorem mkDimChecked_spec_witness :
    (∃ c : ConstantController Int,
      ConstantController.mkDimChecked 3 = some c ∧ c.GetControlDim = 3) ∧
    (ConstantController.mkDimChecked (α := Int) (-1) = none ↔ (-1 : Int) < 0) :=
  ⟨(mkDimChecked_spec (α := Int) 3).1 (by decide), (mkDimChecked_spec (α := Int) (-1)).2⟩

end CtCore
